import Mathlib

/-!
Shallow embedding of the browse/submission coordination logic of the
dspace-angular front end, together with theorems settling the spec claims.

Embedded source files:
* src/app/browse-by/browse-by-metadata-page/browse-by-metadata-page.component.ts
  (BrowseByMetadataPageComponent and the free function browseParamsToOptions)
* src/app/submission/objects/submission-objects.effects.ts
  (SubmissionObjectEffects and SubmissionSubmitFormComponent)

Route and query parameters are JavaScript values (strings or absent keys),
and the component logic leans on JavaScript truthiness and the unary plus
numeric coercion, so we first embed that fragment of JavaScript.
Observables held in the component fields are embedded as symbolic fetch
descriptors: assigning `this.browseService.getBrowseEntriesFor(opts)` to a
field is modelled as storing the descriptor `entriesFor opts` in the slot.
-/

namespace DSpace

/-- A JavaScript value as it can appear in a merged route/query parameter
mapping or in a component field fed from one: a string, a finite number,
an infinity, NaN, or undefined (the key being absent).  Finite numbers
are carried as exact rationals: every numeric string literal denotes a
decimal (or hex, octal, binary) rational, and keeping it exact conflates
only literals closer together than one IEEE double rounding step, which
never changes zero-ness (hence truthiness) for magnitudes down to the
smallest positive double.  The rational 0 also stands for the double -0
(both are falsy and compare equal in JavaScript).  null is not
distinguished from undefined: the Angular params objects never contain
null. -/
inductive JSVal where
  | vStr (s : String)
  | vNum (q : ℚ)
  | vInfinity (neg : Bool)
  | vNaN
  | vUndefined
deriving DecidableEq, Repr

/-- The code points ToNumber strips around a numeric string: WhiteSpace
(tab, VT, FF, space, NBSP, ZWNBSP and the Unicode space separators) and
LineTerminator (LF, CR, LS, PS). -/
def strWhiteSpaceCodes : List Nat :=
  [9, 10, 11, 12, 13, 32, 160, 5760, 8192, 8193, 8194, 8195, 8196, 8197,
    8198, 8199, 8200, 8201, 8202, 8232, 8233, 8239, 8287, 12288, 65279]

/-- Is the character StrWhiteSpace for ToNumber? -/
def isStrWhiteSpace (c : Char) : Bool :=
  strWhiteSpaceCodes.contains c.toNat

/-- Strip leading and trailing StrWhiteSpace. -/
def trimStrWS (cs : List Char) : List Char :=
  ((cs.dropWhile isStrWhiteSpace).reverse.dropWhile isStrWhiteSpace).reverse

/-- The value of a digit character in the given base (hex letters in
either case), none when the character is not a digit of that base. -/
def digitValBase (base : Nat) (c : Char) : Option Nat :=
  let d :=
    if c.isDigit then some (c.toNat - 48)
    else if 97 ≤ c.toNat ∧ c.toNat ≤ 102 then some (c.toNat - 87)
    else if 65 ≤ c.toNat ∧ c.toNat ≤ 70 then some (c.toNat - 55)
    else none
  d.bind (fun v => if v < base then some v else none)

/-- The Nat denoted by a non-empty all-digit list in the given base; none
when the list is empty or holds a non-digit. -/
def parseBase (base : Nat) (cs : List Char) : Option Nat :=
  match cs with
  | [] => none
  | _ =>
    cs.foldl
      (fun acc c => acc.bind (fun n => (digitValBase base c).map (fun d => n * base + d)))
      (some 0)

/-- The Nat denoted by a list of decimal digit characters (the list is
already known to be all digits). -/
def digitsVal (cs : List Char) : Nat :=
  cs.foldl (fun n c => n * 10 + (c.toNat - 48)) 0

/-- Split a character list into its leading decimal digits and the rest. -/
def splitDigits (cs : List Char) : List Char × List Char :=
  (cs.takeWhile Char.isDigit, cs.dropWhile Char.isDigit)

/-- The exact rational denoted by integer digits, fraction digits and a
decimal exponent. -/
def decVal (ip fp : List Char) (ex : Int) : ℚ :=
  ((digitsVal ip : ℚ) + (digitsVal fp : ℚ) / (10 : ℚ) ^ fp.length) * (10 : ℚ) ^ ex

/-- ExponentPart tail after the e or E: an optional sign then non-empty
decimal digits consuming the whole rest; none otherwise. -/
def parseExp (cs : List Char) : Option Int :=
  let digitsAll := fun (ds : List Char) =>
    if ds ≠ [] ∧ ds.all Char.isDigit then some (digitsVal ds) else none
  match cs with
  | '+' :: r => (digitsAll r).map (fun n => (n : Int))
  | '-' :: r => (digitsAll r).map (fun n => -(n : Int))
  | r => (digitsAll r).map (fun n => (n : Int))

/-- StrUnsignedDecimalLiteral without the Infinity form:
DecimalDigits . DecimalDigits_opt ExponentPart_opt,
. DecimalDigits ExponentPart_opt, or DecimalDigits ExponentPart_opt;
none when the list is not entirely such a literal. -/
def parseUnsignedDec (cs : List Char) : Option ℚ :=
  let (ip, rest) := splitDigits cs
  match rest with
  | [] => if ip = [] then none else some (decVal ip [] 0)
  | c :: rest2 =>
    if c = '.' then
      let (fp, rest3) := splitDigits rest2
      if ip = [] ∧ fp = [] then none
      else
        match rest3 with
        | [] => some (decVal ip fp 0)
        | e :: rest4 =>
          if e = 'e' ∨ e = 'E' then (parseExp rest4).map (fun ex => decVal ip fp ex)
          else none
    else if c = 'e' ∨ c = 'E' then
      if ip = [] then none else (parseExp rest2).map (fun ex => decVal ip [] ex)
    else none

/-- NonDecimalIntegerLiteral: 0x/0X hex, 0o/0O octal, 0b/0B binary digits
(no sign allowed); none when the list is not such a literal. -/
def parseNonDecimal (cs : List Char) : Option ℚ :=
  match cs with
  | c0 :: c1 :: rest =>
    if c0 = '0' ∧ (c1 = 'x' ∨ c1 = 'X') then (parseBase 16 rest).map (fun n => (n : ℚ))
    else if c0 = '0' ∧ (c1 = 'o' ∨ c1 = 'O') then (parseBase 8 rest).map (fun n => (n : ℚ))
    else if c0 = '0' ∧ (c1 = 'b' ∨ c1 = 'B') then (parseBase 2 rest).map (fun n => (n : ℚ))
    else none
  | _ => none

/-- A signed StrDecimalLiteral tail (the optional sign already consumed):
the literal Infinity or an unsigned decimal literal, negated under a
minus sign; NaN otherwise. -/
def parseSignedTail (cs : List Char) (neg : Bool) : JSVal :=
  if cs = String.toList "Infinity" then .vInfinity neg
  else
    match parseUnsignedDec cs with
    | some q => .vNum (if neg then -q else q)
    | none => .vNaN

/-- StrNumericLiteral on an already-trimmed character list: empty means 0,
a sign selects the decimal grammar, otherwise a non-decimal (hex, octal,
binary) literal is tried before the unsigned decimal grammar (a string
with a non-decimal prefix and bad digits fails both and is NaN). -/
def parseStrNumeric (cs : List Char) : JSVal :=
  match cs with
  | [] => .vNum 0
  | c :: r =>
    if c = '+' then parseSignedTail r false
    else if c = '-' then parseSignedTail r true
    else
      match parseNonDecimal (c :: r) with
      | some q => .vNum q
      | none => parseSignedTail (c :: r) false

/-- JavaScript ToNumber on a string (the StringNumericLiteral grammar):
strip StrWhiteSpace on both sides, an empty remainder is 0, else parse an
optionally signed decimal literal with optional fraction and exponent,
the literal Infinity, or an unsigned hex, octal or binary literal;
anything else is NaN.  The denoted value is kept as an exact rational
instead of being rounded to the nearest IEEE double (see JSVal). -/
def jsStringToNumber (s : String) : JSVal :=
  parseStrNumeric (trimStrWS s.toList)

/-- JavaScript unary plus. -/
def toNumber : JSVal → JSVal
  | .vStr s => jsStringToNumber s
  | .vNum q => .vNum q
  | .vInfinity b => .vInfinity b
  | .vNaN => .vNaN
  | .vUndefined => .vNaN

/-- JavaScript truthiness on the embedded values: the empty string, 0,
NaN and undefined are falsy; infinities are truthy. -/
def truthy : JSVal → Bool
  | .vStr s => s ≠ ""
  | .vNum q => q ≠ 0
  | .vInfinity _ => true
  | .vNaN => false
  | .vUndefined => false

/-- JavaScript short-circuiting disjunction a || b on values. -/
def jsOr (a b : JSVal) : JSVal :=
  if truthy a then a else b

/-- Modelled from the spec: hasValue of the shared empty-utility module
(shared/empty.util, not among the provided sources).  A value is present
when it is defined (and non-null; null is identified with undefined here):
the spec treats absence of a parameter as the only non-present case. -/
def hasValue (v : JSVal) : Bool :=
  v ≠ JSVal.vUndefined

/-- Modelled from the spec: isNotEmpty of the shared empty-utility module
(shared/empty.util, not among the provided sources).  Per the spec an
empty string means no filter; numbers are never empty; an absent value is
empty. -/
def isNotEmpty (v : JSVal) : Bool :=
  match v with
  | .vStr s => s ≠ ""
  | .vNum _ => true
  | .vInfinity _ => true
  | .vNaN => true
  | .vUndefined => false

/-- Coercion applied to params.value in ngOnInit:
this.value = +params.value || params.value || ''. -/
def coerceValue (v : JSVal) : JSVal :=
  jsOr (toNumber v) (jsOr v (.vStr ""))

/-- Coercion applied to params.startsWith in ngOnInit and in
browseParamsToOptions: +params.startsWith || params.startsWith. -/
def coerceStartsWith (v : JSVal) : JSVal :=
  jsOr (toNumber v) v

/-- Sort direction (core/cache/models/sort-options.model). -/
inductive SortDirection where
  | ASC
  | DESC
deriving DecidableEq, Repr

/-- Sort options: a sort field and a direction. -/
structure SortOptions where
  sortField : String
  direction : SortDirection
deriving DecidableEq, Repr

/-- The pagination configuration fields the component uses
(shared/pagination/pagination-component-options.model). -/
structure PaginationComponentOptions where
  id : String
  currentPage : Nat
  pageSize : Nat
deriving DecidableEq, Repr

/-- Modelled from the spec: the query descriptor
(core/browse/browse-entry-search-options.model, not among the provided
sources), as described by the spec data model and by the component call
sites: metadata definition id, pagination, sort, starts-with filter,
scope.  Construction-order of the positional constructor follows the call
in browseParamsToOptions. -/
structure BrowseEntrySearchOptions where
  metadata : JSVal
  pagination : PaginationComponentOptions
  sort : SortOptions
  startsWith : JSVal
  scope : JSVal
deriving DecidableEq, Repr

/-- Symbolic descriptor for the observable stored in a component result
slot: which data-layer call produced it and from what arguments.
nextItemsOfFirst d stands for getNextBrowseItems applied to the first
succeeded value of the observable described by d, and similarly for the
other adjacent-page constructors; firstSucceededFindById stands for
dsoService.findById piped through getFirstSucceededRemoteData. -/
inductive FetchDesc where
  | entriesFor (opts : BrowseEntrySearchOptions)
  | itemsFor (value : JSVal) (authority : JSVal) (opts : BrowseEntrySearchOptions)
  | nextItemsOfFirst (d : FetchDesc)
  | prevItemsOfFirst (d : FetchDesc)
  | nextEntriesOfFirst (d : FetchDesc)
  | prevEntriesOfFirst (d : FetchDesc)
  | firstSucceededFindById (scope : JSVal)
deriving DecidableEq, Repr

/-- An rxjs subscription: only its closed flag matters here. -/
structure Subscription where
  closed : Bool
deriving DecidableEq, Repr

/-- unsubscribe() closes a subscription (idempotently). -/
def unsubscribe (s : Subscription) : Subscription :=
  { s with closed := true }

/-- Calls the component makes into its collaborators. -/
inductive BrowseEffect where
  | serviceCall (d : FetchDesc)
  | clearPagination (id : String)
deriving DecidableEq, Repr

/-- The pagination id of the component, BBM_PAGINATION_ID. -/
def BBM_PAGINATION_ID : String := "bbm"

/-- The mutable fields of BrowseByMetadataPageComponent that the embedded
logic reads or writes.  The two result slots browseEntries and items and
the parent slot hold symbolic fetch descriptors (none embeds the
JavaScript field value undefined). -/
structure BrowseState where
  browseEntries : Option FetchDesc
  items : Option FetchDesc
  parent : Option FetchDesc
  subs : List (Option Subscription)
  defaultBrowseId : String
  browseId : JSVal
  authority : JSVal
  value : JSVal
  startsWith : JSVal
deriving DecidableEq, Repr

/-- The component state at construction: slots unset, no subscriptions,
default browse id author, value the empty string. -/
def initBrowseState : BrowseState :=
  { browseEntries := none
    items := none
    parent := none
    subs := []
    defaultBrowseId := "author"
    browseId := .vStr "author"
    authority := .vUndefined
    value := .vStr ""
    startsWith := .vUndefined }

/-- The merged route/query parameter mapping the subscription callback
receives.  Each field is vUndefined when the key is absent. -/
structure BrowseParams where
  id : JSVal
  value : JSVal
  authority : JSVal
  startsWith : JSVal
  scope : JSVal
deriving DecidableEq, Repr

/-- Object.assign({}, routeParams, queryParams): a key present in the
query parameters overwrites the route parameter, an absent key leaves it. -/
def mergeParams (r q : BrowseParams) : BrowseParams :=
  { id := if q.id = .vUndefined then r.id else q.id
    value := if q.value = .vUndefined then r.value else q.value
    authority := if q.authority = .vUndefined then r.authority else q.authority
    startsWith := if q.startsWith = .vUndefined then r.startsWith else q.startsWith
    scope := if q.scope = .vUndefined then r.scope else q.scope }

/-- browseParamsToOptions: build the search options from the merged
parameters, the current pagination, the current sort and the metadata
(browse id), coercing startsWith with +params.startsWith ||
params.startsWith and passing params.scope through. -/
def browseParamsToOptions (params : BrowseParams)
    (paginationConfig : PaginationComponentOptions)
    (sortConfig : SortOptions)
    (metadata : JSVal) : BrowseEntrySearchOptions :=
  { metadata := metadata
    pagination := paginationConfig
    sort := sortConfig
    startsWith := coerceStartsWith params.startsWith
    scope := params.scope }

/-- updatePage: store the entries fetch for the given search options and
set the items slot to undefined. -/
def updatePage (st : BrowseState) (searchOptions : BrowseEntrySearchOptions) :
    BrowseState :=
  { st with
    browseEntries := some (.entriesFor searchOptions)
    items := none }

/-- updatePageWithItems: store the items fetch for the given search
options, value and authority.  The entries slot is not written. -/
def updatePageWithItems (st : BrowseState) (searchOptions : BrowseEntrySearchOptions)
    (value : JSVal) (authority : JSVal) : BrowseState :=
  { st with items := some (.itemsFor value authority searchOptions) }

/-- updateParent: when the scope has a value, store the first succeeded
findById fetch for it (a call into the object resolver); otherwise do
nothing. -/
def updateParent (st : BrowseState) (scope : JSVal) :
    BrowseState × List BrowseEffect :=
  if hasValue scope then
    ({ st with parent := some (.firstSucceededFindById scope) },
      [.serviceCall (.firstSucceededFindById scope)])
  else
    (st, [])

/-- goPrev: when the items slot is set, replace it by the previous-page
fetch taken from its first succeeded value; otherwise, when the entries
slot is set, do the same there; otherwise do nothing.  The subscribe
callback is modelled as the assignment it performs once the first
succeeded value arrives. -/
def goPrev (st : BrowseState) : BrowseState × List BrowseEffect :=
  match st.items with
  | some d =>
    ({ st with items := some (.prevItemsOfFirst d) },
      [.serviceCall (.prevItemsOfFirst d)])
  | none =>
    match st.browseEntries with
    | some d =>
      ({ st with browseEntries := some (.prevEntriesOfFirst d) },
        [.serviceCall (.prevEntriesOfFirst d)])
    | none => (st, [])

/-- goNext: when the items slot is set, replace it by the next-page fetch
taken from its first succeeded value; otherwise, when the entries slot is
set, do the same there; otherwise do nothing. -/
def goNext (st : BrowseState) : BrowseState × List BrowseEffect :=
  match st.items with
  | some d =>
    ({ st with items := some (.nextItemsOfFirst d) },
      [.serviceCall (.nextItemsOfFirst d)])
  | none =>
    match st.browseEntries with
    | some d =>
      ({ st with browseEntries := some (.nextEntriesOfFirst d) },
        [.serviceCall (.nextEntriesOfFirst d)])
    | none => (st, [])

/-- ngOnDestroy: unsubscribe every tracked subscription that has a value
(null or undefined entries are skipped by the filter) and clear the
pagination state for the fixed pagination id.  The forEach mutates the
subscription objects held in subs, embedded here as mapping unsubscribe
over the present entries. -/
def ngOnDestroy (st : BrowseState) : BrowseState × List BrowseEffect :=
  ({ st with subs := st.subs.map (Option.map unsubscribe) },
    [.clearPagination BBM_PAGINATION_ID])

/-- The body of the combineLatest subscription in ngOnInit: resolve the
browse id (params.id || this.defaultBrowseId), take the authority, coerce
value and startsWith, build the search options, then fetch items when the
coerced value is not empty and entries otherwise, and finally update the
parent from params.scope. -/
def processBrowseParams (st : BrowseState) (params : BrowseParams)
    (currentPage : PaginationComponentOptions) (currentSort : SortOptions) :
    BrowseState × List BrowseEffect :=
  let browseId := jsOr params.id (.vStr st.defaultBrowseId)
  let authority := params.authority
  let value := coerceValue params.value
  let startsWith := coerceStartsWith params.startsWith
  let st1 := { st with
    browseId := browseId
    authority := authority
    value := value
    startsWith := startsWith }
  let searchOptions := browseParamsToOptions params currentPage currentSort browseId
  let st2 :=
    if isNotEmpty value then updatePageWithItems st1 searchOptions value authority
    else updatePage st1 searchOptions
  updateParent st2 params.scope

/-- A submission definition entry of the shared definitions map: only its
isDefault flag is read by the embedded logic. -/
structure SubmissionDefinition where
  isDefault : Bool
deriving DecidableEq, Repr

/-- The shared definitions map, as an insertion-ordered association list:
Object.keys enumerates string keys in insertion order. -/
abbrev DefinitionsMap : Type := List (String × SubmissionDefinition)

/-- Modelled from the spec: the initialization action
(submission-objects.actions, not among the provided sources) dispatched by
ngOnChanges, carrying both ids as its payload. -/
structure NewSubmissionFormAction where
  collectionId : Option String
  submissionId : Option String
deriving DecidableEq, Repr

/-- The fields of SubmissionSubmitFormComponent the embedded logic reads
or writes.  The two input ids are none when undefined; definitionId
starts undefined and isLoading starts true. -/
structure SubmitFormState where
  collectionId : Option String
  submissionId : Option String
  definitionId : Option String
  isLoading : Bool
deriving DecidableEq, Repr

/-- An Angular SimpleChange for a string input: its currentValue, none
embedding undefined or null. -/
structure SimpleChange where
  currentValue : Option String
deriving DecidableEq, Repr

/-- The SimpleChanges object passed to ngOnChanges: an entry is none when
that input did not change in this round. -/
structure SubmitFormChanges where
  collectionId : Option SimpleChange
  submissionId : Option SimpleChange
deriving DecidableEq, Repr

/-- ngOnChanges: dispatch one NewSubmissionFormAction carrying the
component ids when the changes object has entries for both inputs and
both entries carry a present currentValue; otherwise dispatch nothing.
The returned list is the sequence of store.dispatch calls. -/
def ngOnChanges (st : SubmitFormState) (changes : SubmitFormChanges) :
    List NewSubmissionFormAction :=
  match changes.collectionId, changes.submissionId with
  | some c, some s =>
    if c.currentValue.isSome && s.currentValue.isSome then
      [{ collectionId := st.collectionId, submissionId := st.submissionId }]
    else []
  | _, _ => []

/-- getDefaultSubmissionDefinition, applied to one value of the selected
definitions stream: the rxjs filter drops undefined or empty maps (outer
none: no emission); otherwise the keys are filtered to those flagged
isDefault and keys.pop() returns the last of them, undefined (inner none)
when no key is flagged.  The isUndefined/isEmpty guards are from the
shared empty-utility module, modelled from the spec as the map being
non-empty. -/
def getDefaultSubmissionDefinition (definitions : DefinitionsMap) :
    Option (Option String) :=
  if definitions.isEmpty then none
  else
    some ((definitions.filter (fun p => p.2.isDefault)).map (fun p => p.1)).getLast?

/-- The ngOnInit subscription of SubmissionSubmitFormComponent, applied to
one value of the definitions stream: when getDefaultSubmissionDefinition
emits, set definitionId to the emitted id and isLoading to false;
otherwise the state is untouched. -/
def onDefinitionsValue (st : SubmitFormState) (definitions : DefinitionsMap) :
    SubmitFormState :=
  match getDefaultSubmissionDefinition definitions with
  | none => st
  | some emitted => { st with definitionId := emitted, isLoading := false }

/-- The default sort options built in ngOnInit. -/
def sampleSort : SortOptions :=
  { sortField := "default", direction := .ASC }

/-- The pagination configuration of the component. -/
def samplePagination : PaginationComponentOptions :=
  { id := BBM_PAGINATION_ID, currentPage := 1, pageSize := 20 }

/-- A concrete query descriptor used in concrete instances. -/
def sampleOptions : BrowseEntrySearchOptions :=
  { metadata := .vStr "author"
    pagination := samplePagination
    sort := sampleSort
    startsWith := .vUndefined
    scope := .vUndefined }

/-- A concrete merged parameter mapping carrying only a filter value. -/
def sampleParams : BrowseParams :=
  { id := .vUndefined
    value := .vStr "x"
    authority := .vUndefined
    startsWith := .vUndefined
    scope := .vUndefined }

/-- A concrete component state holding one open and one absent tracked
subscription. -/
def sampleDestroyState : BrowseState :=
  { initBrowseState with subs := [some { closed := false }, none] }

/-- A concrete component state in which both result slots are populated
(reachable: ngOnInit populates the entries slot, and a later parameter
emission with a non-empty value calls updatePageWithItems). -/
def bothSlotsState : BrowseState :=
  { initBrowseState with
    browseEntries := some (.entriesFor sampleOptions)
    items := some (.itemsFor (.vStr "x") .vUndefined sampleOptions) }

/-- A concrete submit-form component state with both input ids set. -/
def sampleSubmitState : SubmitFormState :=
  { collectionId := some "c1"
    submissionId := some "s1"
    definitionId := none
    isLoading := true }

/-- Claim C1, counterexample: the claim says every call to
updatePageWithItems clears the entries slot, but updatePageWithItems only
writes the items slot.  Starting from the initial state, after an
updatePage (which populates the entries slot, as ngOnInit does) followed
by an updatePageWithItems, both slots are populated at once. -/
theorem updatePageWithItems_keeps_entries_cex :
    ((updatePageWithItems (updatePage initBrowseState sampleOptions) sampleOptions
      (JSVal.vStr "x") JSVal.vUndefined).browseEntries).isSome = true ∧
    ((updatePageWithItems (updatePage initBrowseState sampleOptions) sampleOptions
      (JSVal.vStr "x") JSVal.vUndefined).items).isSome = true :=
  ⟨rfl, rfl⟩

/-- Claim C1, amended: after every call to updatePage the items slot is
cleared and the entries slot holds the new entries fetch; after every
call to updatePageWithItems the items slot holds the new items fetch but
the entries slot is left exactly as it was, so mutual exclusivity is
restored by updatePage only, not by updatePageWithItems. -/
theorem update_slots_amended (st : BrowseState) (opts : BrowseEntrySearchOptions)
    (v a : JSVal) :
    (updatePage st opts).items = none ∧
    (updatePage st opts).browseEntries = some (.entriesFor opts) ∧
    (updatePageWithItems st opts v a).browseEntries = st.browseEntries ∧
    (updatePageWithItems st opts v a).items = some (.itemsFor v a opts) :=
  ⟨rfl, rfl, rfl, rfl⟩

/-- Claim C3, counterexample: with both component ids set to the
non-empty strings c1 and s1, a change round in which only the
collectionId input changed (the submissionId entry is absent from the
changes object) dispatches no action at all, although the claim requires
exactly one dispatch whenever either id changes while both ids are
present and non-empty. -/
theorem ngOnChanges_single_change_cex :
    ngOnChanges sampleSubmitState
      { collectionId := some { currentValue := some "c1" }, submissionId := none } = [] ∧
    sampleSubmitState.collectionId = some "c1" ∧
    sampleSubmitState.submissionId = some "s1" ∧
    "c1" ≠ "" ∧ "s1" ≠ "" :=
  ⟨rfl, rfl, rfl, by decide, by decide⟩

/-- Claim C3, amended: when the changes object contains entries for both
collectionId and submissionId and both entries carry a present (defined,
non-null) current value, ngOnChanges dispatches exactly one
NewSubmissionFormAction carrying the component's collectionId and
submissionId; when either entry is absent from the changes object,
nothing is dispatched. -/
theorem ngOnChanges_amended (st : SubmitFormState) (ch : SubmitFormChanges) :
    (∀ c s cv sv, ch.collectionId = some c → ch.submissionId = some s →
      c.currentValue = some cv → s.currentValue = some sv →
      ngOnChanges st ch =
        [{ collectionId := st.collectionId, submissionId := st.submissionId }]) ∧
    (ch.collectionId = none ∨ ch.submissionId = none → ngOnChanges st ch = []) := by
  constructor
  · intro c s cv sv hc hs hcv hsv
    simp [ngOnChanges, hc, hs, hcv, hsv]
  · intro h
    rcases h with h | h <;> simp [ngOnChanges, h]

/-- Witness for the amended claim C3: both ids newly set to c1 and s1
dispatch exactly one action with payload collectionId c1, submissionId s1. -/
theorem ngOnChanges_amended_w :
    ngOnChanges sampleSubmitState
      { collectionId := some { currentValue := some "c1" }
        submissionId := some { currentValue := some "s1" } } =
      [{ collectionId := some "c1", submissionId := some "s1" }] :=
  (ngOnChanges_amended sampleSubmitState
    { collectionId := some { currentValue := some "c1" }
      submissionId := some { currentValue := some "s1" } }).1
    { currentValue := some "c1" } { currentValue := some "s1" } "c1" "s1" rfl rfl rfl rfl

/-- Claim C2: for a non-empty definitions map whose last entry flagged
isDefault has key k (everything after it is not flagged),
getDefaultSubmissionDefinition emits exactly that key, and the
subscribing bootstrap step sets definitionId to it and isLoading to
false.  On the map A not default, B default, the emitted id is B (see the
witness). -/
theorem default_definition_last_key (l1 l2 : List (String × SubmissionDefinition))
    (k : String) (d : SubmissionDefinition) (st : SubmitFormState)
    (hd : d.isDefault = true) (h2 : ∀ p ∈ l2, p.2.isDefault = false) :
    getDefaultSubmissionDefinition (l1 ++ (k, d) :: l2) = some (some k) ∧
    (onDefinitionsValue st (l1 ++ (k, d) :: l2)).definitionId = some k ∧
    (onDefinitionsValue st (l1 ++ (k, d) :: l2)).isLoading = false := by
  have hne : (l1 ++ (k, d) :: l2).isEmpty = false := by
    cases l1 <;> rfl
  have hl2 : l2.filter (fun p => p.2.isDefault) = [] := by
    apply List.filter_eq_nil_iff.mpr
    intro a ha
    simp [h2 a ha]
  have hfilter : (l1 ++ (k, d) :: l2).filter (fun p => p.2.isDefault) =
      l1.filter (fun p => p.2.isDefault) ++ [(k, d)] := by
    simp [List.filter_append, List.filter_cons, hd, hl2]
  have hmain : getDefaultSubmissionDefinition (l1 ++ (k, d) :: l2) = some (some k) := by
    simp only [getDefaultSubmissionDefinition, hne, Bool.false_eq_true, if_false, hfilter,
      List.map_append, List.map_cons, List.map_nil]
    rw [List.getLast?_concat]
  refine ⟨hmain, ?_, ?_⟩ <;> simp [onDefinitionsValue, hmain]

/-- Witness for claim C2 on the map A not default, B default: the emitted
id is B and the subscriber sets definitionId to B and isLoading to false. -/
theorem default_definition_last_key_w :
    getDefaultSubmissionDefinition
      [("A", { isDefault := false }), ("B", { isDefault := true })] = some (some "B") ∧
    (onDefinitionsValue sampleSubmitState
      [("A", { isDefault := false }), ("B", { isDefault := true })]).definitionId =
        some "B" ∧
    (onDefinitionsValue sampleSubmitState
      [("A", { isDefault := false }), ("B", { isDefault := true })]).isLoading = false :=
  default_definition_last_key [("A", { isDefault := false })] [] "B"
    { isDefault := true } sampleSubmitState rfl (by simp)

/-- Claim C9: for a non-empty definitions map in which no entry is
flagged isDefault, getDefaultSubmissionDefinition still emits a value,
namely undefined (popping the empty filtered key list), and the
subscriber sets definitionId to undefined and isLoading to false rather
than keep waiting. -/
theorem no_default_emits_undefined (defs : DefinitionsMap) (st : SubmitFormState)
    (hne : defs ≠ []) (hnd : ∀ p ∈ defs, p.2.isDefault = false) :
    getDefaultSubmissionDefinition defs = some none ∧
    (onDefinitionsValue st defs).definitionId = none ∧
    (onDefinitionsValue st defs).isLoading = false := by
  have h0 : defs.isEmpty = false := by
    cases defs with
    | nil => exact absurd rfl hne
    | cons a t => rfl
  have hl : defs.filter (fun p => p.2.isDefault) = [] := by
    apply List.filter_eq_nil_iff.mpr
    intro a ha
    simp [hnd a ha]
  have hmain : getDefaultSubmissionDefinition defs = some none := by
    simp [getDefaultSubmissionDefinition, h0, hl]
  refine ⟨hmain, ?_, ?_⟩ <;> simp [onDefinitionsValue, hmain]

/-- Witness for claim C9 on the one-entry map A not default. -/
theorem no_default_emits_undefined_w :
    getDefaultSubmissionDefinition [("A", { isDefault := false })] = some none ∧
    (onDefinitionsValue sampleSubmitState
      [("A", { isDefault := false })]).definitionId = none ∧
    (onDefinitionsValue sampleSubmitState
      [("A", { isDefault := false })]).isLoading = false :=
  no_default_emits_undefined [("A", { isDefault := false })] sampleSubmitState
    (by simp) (by simp)

/-- Claim C5: for every merged parameter snapshot processed by the
component (with the configured default browse id, author), if the coerced
filter value is non-empty the items slot is set to the items fetch for
that value and the carried authority; otherwise the entries slot is set
to the entries fetch for the search options built over the resolved
browse id, and the items slot is cleared; the resolved browse id falls
back to author when the id parameter is absent. -/
theorem mode_selection_contract (st : BrowseState) (params : BrowseParams)
    (currentPage : PaginationComponentOptions) (currentSort : SortOptions)
    (hdef : st.defaultBrowseId = "author") :
    (isNotEmpty (coerceValue params.value) = true →
      (processBrowseParams st params currentPage currentSort).1.items =
        some (.itemsFor (coerceValue params.value) params.authority
          (browseParamsToOptions params currentPage currentSort
            (jsOr params.id (.vStr "author"))))) ∧
    (isNotEmpty (coerceValue params.value) = false →
      (processBrowseParams st params currentPage currentSort).1.browseEntries =
        some (.entriesFor (browseParamsToOptions params currentPage currentSort
          (jsOr params.id (.vStr "author")))) ∧
      (processBrowseParams st params currentPage currentSort).1.items = none) ∧
    (params.id = JSVal.vUndefined →
      (processBrowseParams st params currentPage currentSort).1.browseId =
        JSVal.vStr "author") := by
  refine ⟨?_, ?_, ?_⟩
  · intro h
    by_cases hsc : hasValue params.scope = true <;>
      simp [processBrowseParams, hdef, h, updatePageWithItems, updateParent, hsc]
  · intro h
    by_cases hsc : hasValue params.scope = true <;>
      simp [processBrowseParams, hdef, h, updatePage, updateParent, hsc]
  · intro h
    by_cases hv : isNotEmpty (coerceValue params.value) = true <;>
      by_cases hsc : hasValue params.scope = true <;>
        simp [processBrowseParams, hdef, hv, updatePage, updatePageWithItems,
          updateParent, hsc, h, jsOr, truthy]

/-- Witness for claim C5: a snapshot with filter value x and no id
parameter selects item-fetch mode. -/
theorem mode_selection_contract_w :
    (processBrowseParams initBrowseState sampleParams samplePagination sampleSort).1.items =
      some (.itemsFor (coerceValue (JSVal.vStr "x")) JSVal.vUndefined
        (browseParamsToOptions sampleParams samplePagination sampleSort
          (jsOr JSVal.vUndefined (JSVal.vStr "author")))) :=
  (mode_selection_contract initBrowseState sampleParams samplePagination sampleSort
    rfl).1 (by decide)

/-- Claim C6: goNext and goPrev are complete no-ops (same state, no
service call) when both result slots are empty; when the items slot is
populated they replace only that slot by the adjacent-page fetch built
from its first succeeded value, and when only the entries slot is
populated they do the same on the entries slot. -/
theorem go_adjacent_contract (st : BrowseState) :
    (st.items = none → st.browseEntries = none →
      goNext st = (st, []) ∧ goPrev st = (st, [])) ∧
    (∀ d, st.items = some d →
      (goNext st).1 = { st with items := some (.nextItemsOfFirst d) } ∧
      (goNext st).2 = [.serviceCall (.nextItemsOfFirst d)] ∧
      (goPrev st).1 = { st with items := some (.prevItemsOfFirst d) } ∧
      (goPrev st).2 = [.serviceCall (.prevItemsOfFirst d)]) ∧
    (∀ d, st.items = none → st.browseEntries = some d →
      (goNext st).1 = { st with browseEntries := some (.nextEntriesOfFirst d) } ∧
      (goNext st).2 = [.serviceCall (.nextEntriesOfFirst d)] ∧
      (goPrev st).1 = { st with browseEntries := some (.prevEntriesOfFirst d) } ∧
      (goPrev st).2 = [.serviceCall (.prevEntriesOfFirst d)]) := by
  refine ⟨?_, ?_, ?_⟩
  · intro hi he
    constructor <;> simp [goNext, goPrev, hi, he]
  · intro d hi
    refine ⟨?_, ?_, ?_, ?_⟩ <;> simp [goNext, goPrev, hi]
  · intro d hi he
    refine ⟨?_, ?_, ?_, ?_⟩ <;> simp [goNext, goPrev, hi, he]

/-- Witness for claim C6: on the initial state, both slots empty, goNext
returns the state untouched with no service call. -/
theorem go_adjacent_contract_w :
    goNext initBrowseState = (initBrowseState, []) :=
  ((go_adjacent_contract initBrowseState).1 rfl rfl).1

/-- Claim C7: ngOnDestroy closes every tracked subscription that has a
value (absent entries are skipped and stay absent), leaves the result
slots untouched, and emits exactly the clearPagination call for the
fixed pagination key bbm. -/
theorem ngOnDestroy_contract (st : BrowseState) :
    (ngOnDestroy st).2 = [BrowseEffect.clearPagination "bbm"] ∧
    (∀ os ∈ (ngOnDestroy st).1.subs, ∀ s, os = some s → s.closed = true) ∧
    (∀ i : Nat, st.subs.get? i = some none →
      (ngOnDestroy st).1.subs.get? i = some none) ∧
    (ngOnDestroy st).1.browseEntries = st.browseEntries ∧
    (ngOnDestroy st).1.items = st.items ∧
    (ngOnDestroy st).1.parent = st.parent := by
  refine ⟨rfl, ?_, ?_, rfl, rfl, rfl⟩
  · intro os hos s hs
    simp only [ngOnDestroy, List.mem_map] at hos
    rcases hos with ⟨o, _, ho⟩
    subst hs
    cases o with
    | none => exact Option.noConfusion ho
    | some s0 =>
      have h2 : unsubscribe s0 = s := Option.some.inj ho
      rw [Eq.symm h2]
      rfl
  · intro i hi
    rw [List.get?_eq_getElem?] at hi
    rw [List.get?_eq_getElem?]
    simp [ngOnDestroy, List.getElem?_map, hi]

/-- Witness for claim C7 on a state carrying one open and one absent
subscription: the closed flag of a present entry after teardown is true,
and the effect list is exactly the clearPagination call for bbm. -/
theorem ngOnDestroy_contract_w :
    (ngOnDestroy sampleDestroyState).2 = [BrowseEffect.clearPagination "bbm"] ∧
    (Subscription.mk true).closed = true :=
  ⟨(ngOnDestroy_contract sampleDestroyState).1,
    (ngOnDestroy_contract sampleDestroyState).2.1 (some { closed := true })
      (by decide) { closed := true } rfl⟩

/-- Claim C8: updateParent stores the first-succeeded findById fetch for
the scope, with a resolver call, exactly when the scope parameter is
present; when the scope is absent it performs no call and returns the
state unchanged (in particular the parent slot keeps its old value). -/
theorem updateParent_contract (st : BrowseState) (scope : JSVal) :
    (hasValue scope = true →
      updateParent st scope =
        ({ st with parent := some (.firstSucceededFindById scope) },
          [.serviceCall (.firstSucceededFindById scope)])) ∧
    (hasValue scope = false → updateParent st scope = (st, [])) := by
  constructor <;> intro h <;> simp [updateParent, h]

/-- Witness for claim C8 at a present scope. -/
theorem updateParent_contract_w :
    updateParent initBrowseState (JSVal.vStr "uuid") =
      ({ initBrowseState with
          parent := some (.firstSucceededFindById (JSVal.vStr "uuid")) },
        [.serviceCall (.firstSucceededFindById (JSVal.vStr "uuid"))]) :=
  (updateParent_contract initBrowseState (JSVal.vStr "uuid")).1 (by decide)

/-- Claim C10: when both result slots are populated, goNext and goPrev
advance only the items slot (the items branch is checked first) and the
entries slot keeps its value. -/
theorem go_both_slots_items_first (st : BrowseState) (di de : FetchDesc)
    (hi : st.items = some di) (he : st.browseEntries = some de) :
    (goNext st).1.browseEntries = some de ∧
    (goNext st).1.items = some (.nextItemsOfFirst di) ∧
    (goPrev st).1.browseEntries = some de ∧
    (goPrev st).1.items = some (.prevItemsOfFirst di) := by
  refine ⟨?_, ?_, ?_, ?_⟩ <;> simp [goNext, goPrev, hi, he]

/-- Witness for claim C10 on a concrete state with both slots populated. -/
theorem go_both_slots_items_first_w :
    (goNext bothSlotsState).1.browseEntries = some (.entriesFor sampleOptions) ∧
    (goNext bothSlotsState).1.items =
      some (.nextItemsOfFirst (.itemsFor (.vStr "x") .vUndefined sampleOptions)) ∧
    (goPrev bothSlotsState).1.browseEntries = some (.entriesFor sampleOptions) ∧
    (goPrev bothSlotsState).1.items =
      some (.prevItemsOfFirst (.itemsFor (.vStr "x") .vUndefined sampleOptions)) :=
  go_both_slots_items_first bothSlotsState
    (.itemsFor (.vStr "x") .vUndefined sampleOptions) (.entriesFor sampleOptions) rfl rfl

end DSpace
